import Mathlib

/-!
Shallow embedding of the Iceberg scoring engine: `src/iceberg/analysis/scoring.py`,
`src/iceberg/analysis/indicators.py` and `src/iceberg/analysis/backtest.py`.

Modelling conventions:
* Python floats are modelled as rationals (`ℚ`); the float literals 0.67, 0.3,
  1.2, 0.8, 0.98, 1.10, 0.90 become the rationals 67/100, 3/10, 6/5, 4/5,
  49/50, 11/10, 9/10.
* The Python `int(...)` conversion (truncation toward zero) is `pyInt`; the
  Python builtin `round` (ties to even) is `pyRound`.
* `Optional[T]` is `Option T`.  The optional price list `closes` is modelled
  as a plain `List ℚ` with `None` represented by `[]`: every access in the
  source goes through truthiness (`if not closes`, `if closes and ...`),
  which identifies the two.
* Rational division is total with `x / 0 = 0`; the source guards every
  division that its callers can reach, and the spots where Python would raise
  `ZeroDivisionError` (for example a zero rally-start price) are noted inline.
* `statistics.stdev` returns a square root, which is irrational in general;
  only the comparison of sigma against 1.0 and 3.0 is consumed, so the
  embedding carries sigma squared and compares against 1 and 9.
-/

namespace Iceberg

attribute [local semireducible] Rat.add Rat.mul Rat.sub Rat.inv Rat.ofScientific

/-- Truncation toward zero, the behaviour of Python `int(...)` on a float. -/
def pyInt (q : ℚ) : ℤ := if 0 ≤ q then ⌊q⌋ else -⌊-q⌋

/-- Round to the nearest integer, ties to the even integer: the behaviour of
the Python builtin `round` on a float. -/
def pyRound (q : ℚ) : ℤ :=
  if q + 1/2 = (⌊q + 1/2⌋ : ℚ) ∧ ⌊q + 1/2⌋ % 2 ≠ 0 then ⌊q + 1/2⌋ - 1 else ⌊q + 1/2⌋

/-- The Python slice `l[-n:]` (the trailing `n` elements). -/
def takeLast (n : ℕ) (l : List ℚ) : List ℚ := l.drop (l.length - n)

/-- Python `min(l)` on a nonempty list (callers guard nonemptiness; the
default 0 for `[]` is never reached). -/
def pyMin : List ℚ → ℚ
  | [] => 0
  | h :: t => t.foldl min h

/-- Python `max(l)` on a nonempty list (callers guard nonemptiness; the
default 0 for `[]` is never reached). -/
def pyMax : List ℚ → ℚ
  | [] => 0
  | h :: t => t.foldl max h

/-- Python truthiness of an `Optional[float]`: `None` and `0.0` are falsy. -/
def qTruthy : Option ℚ → Bool
  | none => false
  | some x => x != 0

/-- MACD trend bias (`models.MACDBias`); enum members are always truthy. -/
inductive MACDBias where
  | BULL
  | BEAR
  | NEUTRAL
deriving DecidableEq, Repr

/-- RSI strength bias (`models.RSIBias`). -/
inductive RSIBias where
  | OVERBOUGHT
  | STRONG
  | NEUTRAL
  | WEAK
  | OVERSOLD
deriving DecidableEq, Repr

/-- Trend direction bias (`models.TrendBias`). -/
inductive TrendBias where
  | UP
  | DOWN
  | SIDEWAYS
deriving DecidableEq, Repr

/-- Volatility level bias (`models.VolatilityBias`). -/
inductive VolatilityBias where
  | CALM
  | CHOPPY
  | WILD
deriving DecidableEq, Repr

/-- `models.MACDResult`. -/
structure MACDResult where
  macd : ℚ
  signal : ℚ
  hist : ℚ
  bias : MACDBias
deriving DecidableEq, Repr

/-- `models.RSIResult`. -/
structure RSIResult where
  value : ℚ
  bias : RSIBias
deriving DecidableEq, Repr

/-- `models.TrendSummary`. -/
structure TrendSummary where
  sma_value : ℚ
  delta_pct : ℚ
  bias : TrendBias
deriving DecidableEq, Repr

/-- `models.VolatilitySummary`; `sigma_sq` is the square of the sigma the
source stores (see the header note on `statistics.stdev`). -/
structure VolatilitySummary where
  sigma_sq : ℚ
  bias : VolatilityBias
deriving DecidableEq, Repr

/-- `scoring.ScoreResult`: both turnaround and BAU scores plus the flag. -/
structure ScoreResult where
  turnaround_raw : ℤ
  turnaround_score : ℤ
  bau_raw : ℤ
  bau_score : ℤ
  turnaround_active : Bool
deriving DecidableEq, Repr

/-- `ScoreResult.display_score`: turnaround if active, else BAU. -/
def ScoreResult.display_score (r : ScoreResult) : ℤ :=
  if r.turnaround_active then r.turnaround_score else r.bau_score

/-- `ScoreResult.display_raw`: turnaround if active, else BAU. -/
def ScoreResult.display_raw (r : ScoreResult) : ℤ :=
  if r.turnaround_active then r.turnaround_raw else r.bau_raw

/-- The loop body of `indicators.compute_ema`: given the previous EMA value,
emit `x * k + prev * (1 - k)` for each remaining price. -/
def emaStep (k : ℚ) : ℚ → List ℚ → List ℚ
  | _, [] => []
  | prev, x :: rest =>
    let e := x * k + prev * (1 - k)
    e :: emaStep k e rest

/-- `indicators.compute_ema`: seed with the first value, smoothing constant
`k = 2 / (period + 1)`; empty when `len(values) < period`. -/
def compute_ema (values : List ℚ) (period : ℕ) : List ℚ :=
  if values.length < period then []
  else
    match values with
    | [] => []
    | v :: rest => v :: emaStep (2 / ((period : ℚ) + 1)) v rest

/-- `indicators.compute_macd`: MACD(12, 26, 9). -/
def compute_macd (closes : List ℚ) : Option MACDResult :=
  if closes.length < 26 then none
  else
    let fast_ema := compute_ema closes 12
    let slow_ema := compute_ema closes 26
    if fast_ema = [] ∨ slow_ema = [] then none
    else
      let macd_line := List.zipWith (fun f s => f - s) fast_ema slow_ema
      let signal := compute_ema macd_line 9
      if signal = [] then none
      else
        let macd_val := macd_line.getLast?.getD 0
        let signal_val := signal.getLast?.getD 0
        let hist := macd_val - signal_val
        let bias :=
          if |hist| < 1/100 then MACDBias.NEUTRAL
          else if hist > 0 then MACDBias.BULL
          else MACDBias.BEAR
        some ⟨macd_val, signal_val, hist, bias⟩

/-- `indicators.compute_rsi`: average gain/loss over the trailing `period`
deltas; RSI = 100 when the average loss is zero. -/
def compute_rsi (closes : List ℚ) (period : ℕ) : Option RSIResult :=
  if closes.length < period + 1 then none
  else
    let gains := List.zipWith (fun prev next => max 0 (next - prev)) closes closes.tail
    let losses := List.zipWith (fun prev next => max 0 (prev - next)) closes closes.tail
    if gains.length < period then none
    else
      let avg_gain := (takeLast period gains).sum / period
      let avg_loss := (takeLast period losses).sum / period
      let rsi : ℚ :=
        if avg_loss = 0 then 100
        else 100 - 100 / (1 + avg_gain / avg_loss)
      let bias :=
        if rsi ≥ 70 then RSIBias.OVERBOUGHT
        else if rsi ≥ 55 then RSIBias.STRONG
        else if rsi ≥ 45 then RSIBias.NEUTRAL
        else if rsi ≥ 30 then RSIBias.WEAK
        else RSIBias.OVERSOLD
      some ⟨rsi, bias⟩

/-- `indicators.compute_sma`: mean of the trailing `period` values. -/
def compute_sma (closes : List ℚ) (period : ℕ) : Option ℚ :=
  if closes.length < period then none
  else some ((takeLast period closes).sum / period)

/-- `indicators.compute_trend`: SMA plus percentage delta of the last price.
The source divides by the SMA; a zero SMA would raise in Python and yields
the total-division default here (callers only reach positive prices). -/
def compute_trend (closes : List ℚ) (sma_period : ℕ) : Option TrendSummary :=
  match compute_sma closes sma_period with
  | none => none
  | some sma =>
    if closes.length = 0 then none
    else
      let last_price := closes.getLast?.getD 0
      let delta_pct := (last_price - sma) / sma * 100
      let bias :=
        if delta_pct > 2 then TrendBias.UP
        else if delta_pct < -2 then TrendBias.DOWN
        else TrendBias.SIDEWAYS
      some ⟨sma, delta_pct, bias⟩

/-- The day-over-day percentage returns of `indicators.compute_volatility`,
skipping pairs whose first price is zero. -/
def dailyReturns (closes : List ℚ) : List ℚ :=
  List.reduceOption <|
    List.zipWith
      (fun prev next => if prev ≠ 0 then some ((next - prev) / prev * 100) else none)
      closes closes.tail

/-- `indicators.compute_volatility`: sample variance of daily percentage
returns; the bias compares sigma against 1.0 and 3.0, embedded here as the
equivalent comparison of sigma squared against 1 and 9. -/
def compute_volatility (closes : List ℚ) : Option VolatilitySummary :=
  if closes.length < 2 then none
  else
    let returns := dailyReturns closes
    if returns.length < 2 then none
    else
      let n := returns.length
      let mean := returns.sum / n
      let sigma_sq := (returns.map (fun r => (r - mean) ^ 2)).sum / ((n : ℚ) - 1)
      let bias :=
        if sigma_sq < 1 then VolatilityBias.CALM
        else if sigma_sq < 9 then VolatilityBias.CHOPPY
        else VolatilityBias.WILD
      some ⟨sigma_sq, bias⟩

/-- `indicators.compute_distance_from_high`: percentage distance of the last
close from the trailing `period`-day high. -/
def compute_distance_from_high (closes : List ℚ) (period : ℕ) : Option ℚ :=
  if closes.length < period + 1 then none
  else
    let recent_closes := takeLast period closes
    let recent_high := pyMax recent_closes
    let current_price := closes.getLast?.getD 0
    if recent_high = 0 then none
    else some ((current_price - recent_high) / recent_high * 100)

/-- `indicators.count_recovery_patterns`: scan the trailing window day by
day, entering a dip when the price drops below the running SMA(50) and
counting a recovery when it crosses back above while also above SMA(10). -/
def count_recovery_patterns (closes : List ℚ) (lookback_days : ℕ) : ℕ :=
  if closes.length < 50 then 0
  else
    let period_closes := takeLast lookback_days closes
    if period_closes.length < 50 then 0
    else
      (((List.range period_closes.length).drop 50).foldl
        (fun (st : ℕ × Bool) i =>
          let window := period_closes.take (i + 1)
          match compute_sma window 50, compute_sma window 10 with
          | some sma50, some sma10 =>
            let current_price := window.getLast?.getD 0
            if current_price < sma50 ∧ ¬st.2 then (st.1, true)
            else if current_price > sma50 ∧ st.2 then
              (if current_price > sma10 then st.1 + 1 else st.1, false)
            else st
          | _, _ => st)
        (0, false)).1

/-- `indicators.compute_long_term_trend`: the bias of `compute_trend`. -/
def compute_long_term_trend (closes : List ℚ) (period : ℕ) : Option TrendBias :=
  (compute_trend closes period).map (·.bias)

/-- `indicators.compute_rally_magnitude`: largest trough-to-peak percentage
gain inside the trailing window (the window shrinks to the list when it is
shorter; a zero or negative trough contributes 0). -/
def compute_rally_magnitude (closes : List ℚ) (lookback_days : ℕ) : Option ℚ :=
  let lb := if closes.length < lookback_days then closes.length else lookback_days
  if lb < 10 then none
  else
    let lookback := takeLast lb closes
    some <| (List.range lookback.length).foldl
      (fun max_rally_pct i =>
        if i < lookback.length - 1 then
          let trough := lookback.getD i 0
          let peak := pyMax (lookback.drop (i + 1))
          let rally_pct := if trough > 0 then (peak - trough) / trough * 100 else 0
          max max_rally_pct rally_pct
        else max_rally_pct)
      0

/-- `indicators.compute_growth_rate`: simple percentage change from
`closes[-period_days]` to `closes[-1]`. -/
def compute_growth_rate (closes : List ℚ) (period_days : ℕ) : Option ℚ :=
  if closes.length < period_days then none
  else
    let start_price := closes.getD (closes.length - period_days) 0
    let end_price := closes.getLast?.getD 0
    if start_price ≤ 0 then none
    else some ((end_price - start_price) / start_price * 100)

/-- `indicators.compute_return_to_highs_frequency`: percentage of days after
a 20-day warmup whose close is within 10 percent of the trailing 21-sample
rolling high. -/
def compute_return_to_highs_frequency (closes : List ℚ) (lookback_days : ℕ) : Option ℚ :=
  let lb := if closes.length < lookback_days then closes.length else lookback_days
  if lb < 20 then none
  else
    let lookback := takeLast lb closes
    let days_near_high :=
      ((List.range lookback.length).drop 20).countP
        (fun i =>
          let rolling_high := pyMax ((lookback.drop (i - 20)).take 21)
          decide (lookback.getD i 0 ≥ rolling_high * (9/10)))
    let total_days := lookback.length - 20
    some (if 0 < total_days then (days_near_high : ℚ) / (total_days : ℚ) * 100 else 0)

/-- `indicators.compute_trend_slope`: ordinary least squares slope of price
against day index over the trailing window, annualized by 252 days and the
mean price. -/
def compute_trend_slope (closes : List ℚ) (period : ℕ) : Option ℚ :=
  let p := if closes.length < period then closes.length else period
  if p < 20 then none
  else
    let lookback := takeLast p closes
    let n := lookback.length
    let sum_x : ℚ := ((List.range n).map (fun i => (i : ℚ))).sum
    let sum_y := lookback.sum
    let sum_xy := (List.zipWith (fun (i : ℕ) y => (i : ℚ) * y) (List.range n) lookback).sum
    let sum_x_sq : ℚ := ((List.range n).map (fun i => ((i : ℚ)) ^ 2)).sum
    let denominator := (n : ℚ) * sum_x_sq - sum_x * sum_x
    if denominator = 0 then none
    else
      let slope := ((n : ℚ) * sum_xy - sum_x * sum_y) / denominator
      let avg_price := sum_y / (n : ℚ)
      if avg_price = 0 then none
      else some (slope * 252 / avg_price * 100)

/-! ## Scoring weights (`scoring.py`, v1.3 trade / v1.4.1 investment) -/

def TRADE_MACD_WEIGHT : ℤ := 25
def TRADE_RSI_WEIGHT : ℤ := 15
def TRADE_SMA10_WEIGHT : ℤ := 20
def TRADE_TREND10_WEIGHT : ℤ := 20
def TRADE_VOLATILITY_WEIGHT : ℤ := 5
def TRADE_RECOVERY_BONUS : ℤ := 20
def TRADE_POST_SHOCK_BONUS : ℤ := 60
def TRADE_CAPITULATION_BONUS : ℤ := 205
def TRADE_CHEAP_WINNER_BONUS : ℤ := 15
def TRADE_RSI_OVERSOLD_BONUS : ℤ := 10

def RESILIENCE_HIGH : ℤ := 3
/-- Source value 1.2. -/
def RESILIENCE_MULTIPLIER_HIGH : ℚ := 6/5
/-- Source value 0.8. -/
def RESILIENCE_MULTIPLIER_LOW : ℚ := 4/5

/-- The normalization divisor named in `calculate_trade_score` (v1.3). -/
def TRADE_MAX_POINTS : ℤ := 395
/-- The normalization divisor named in `calculate_investment_score` (v1.4.1). -/
def INV_MAX_POINTS : ℤ := 465

/-! ## Component scoring functions (`scoring.py`) -/

/-- `scoring.score_macd`. -/
def score_macd (macd_bias : Option MACDBias) (weight : ℤ) : ℤ :=
  match macd_bias with
  | none => 0
  | some MACDBias.BULL => weight
  | some MACDBias.BEAR => -weight
  | some MACDBias.NEUTRAL => 0

/-- `scoring.score_rsi`; the source computes `int(weight * 0.67)` for the
Strong and Weak bands. -/
def score_rsi (rsi_value : Option ℚ) (rsi_bias : Option RSIBias) (weight : ℤ) : ℤ :=
  match rsi_bias, rsi_value with
  | none, _ => 0
  | _, none => 0
  | some RSIBias.OVERSOLD, some _ => weight
  | some RSIBias.WEAK, some _ => pyInt (-(weight : ℚ) * (67/100))
  | some RSIBias.NEUTRAL, some _ => 0
  | some RSIBias.STRONG, some _ => pyInt ((weight : ℚ) * (67/100))
  | some RSIBias.OVERBOUGHT, some _ => -weight

/-- `scoring.score_sma_position`: percentage distance from the SMA truncated
to an integer and capped at plus or minus `weight`. -/
def score_sma_position (current_price sma_value : ℚ) (weight : ℤ) : ℤ :=
  if sma_value = 0 then 0
  else max (-weight) (min weight (pyInt ((current_price - sma_value) / sma_value * 100)))

/-- `scoring.score_trend`. -/
def score_trend (trend_bias : Option TrendBias) (weight : ℤ) : ℤ :=
  match trend_bias with
  | none => 0
  | some TrendBias.UP => weight
  | some TrendBias.DOWN => -weight
  | some TrendBias.SIDEWAYS => 0

/-- `scoring.score_volatility_trade`: volatility is opportunity. -/
def score_volatility_trade (volatility_bias : Option VolatilityBias) (weight : ℤ) : ℤ :=
  match volatility_bias with
  | some VolatilityBias.CALM => weight
  | some VolatilityBias.WILD => weight
  | _ => 0

/-- `scoring.score_volatility_investment`: volatility is risk. -/
def score_volatility_investment (volatility_bias : Option VolatilityBias) (weight : ℤ) : ℤ :=
  match volatility_bias with
  | some VolatilityBias.CALM => weight
  | some VolatilityBias.WILD => -weight
  | _ => 0

/-- `scoring.score_rsi_contextual`: the pair of base score and oversold
bonus; the oversold-in-downtrend branch keeps `int(base * 0.3)`. -/
def score_rsi_contextual (rsi_value : Option ℚ) (rsi_bias : Option RSIBias)
    (long_term_trend : Option TrendBias) (weight : ℤ) : ℤ × ℤ :=
  let base_score := score_rsi rsi_value rsi_bias weight
  if rsi_bias = some RSIBias.OVERSOLD ∧ long_term_trend = some TrendBias.UP then
    (base_score, TRADE_RSI_OVERSOLD_BONUS)
  else if rsi_bias = some RSIBias.OVERSOLD ∧ long_term_trend = some TrendBias.DOWN then
    (pyInt ((base_score : ℚ) * (3/10)), 0)
  else (base_score, 0)

/-- `scoring.score_volatility_resilient`: wild volatility is scaled by
`int(base * 0.5)` or `int(base * 1.5)` for the investment score only. -/
def score_volatility_resilient (volatility_bias : Option VolatilityBias)
    (resilience_count : ℤ) (weight : ℤ) (score_type : String) : ℤ :=
  let base_score :=
    if score_type = "trade" then score_volatility_trade volatility_bias weight
    else score_volatility_investment volatility_bias weight
  if volatility_bias = some VolatilityBias.WILD ∧ score_type = "investment" then
    if resilience_count ≥ RESILIENCE_HIGH then pyInt ((base_score : ℚ) * (1/2))
    else if resilience_count = 0 then pyInt ((base_score : ℚ) * (3/2))
    else base_score
  else base_score

/-! ## Pattern detectors (`scoring.py`) -/

/-- `scoring.detect_recovery_pattern`: buy-the-dip pattern.  The source
guard `all([sma10, sma50, trend10_bias, trend50_bias])` makes a zero SMA
falsy, hence the explicit nonzero tests. -/
def detect_recovery_pattern (current_price : ℚ) :
    Option ℚ → Option ℚ → Option TrendBias → Option TrendBias → Bool
  | some sma10, some sma50, some t10, some t50 =>
    sma10 != 0 && sma50 != 0 &&
    decide (current_price < sma50) && decide (current_price > sma10) &&
    decide (t10 = TrendBias.UP) && decide (t50 = TrendBias.UP)
  | _, _, _, _ => false

/-- `scoring.detect_post_shock_recovery` (v1.2): sharp drop from the 20-day
high, historical strength above the running SMA(100) somewhere in the past
60 days, and either RSI above 20 or a price within 2 percent of the 5-day
low.  `macd_hist` and `long_term_trend` are legacy inputs the body ignores. -/
def detect_post_shock_recovery (current_price : ℚ) (distance_from_high : Option ℚ)
    (rsi_value : Option ℚ) (macd_hist : Option ℚ) (long_term_trend : Option TrendBias)
    (closes : List ℚ) (sma100 : Option ℚ) : Bool :=
  match distance_from_high with
  | none => false
  | some dist =>
    if dist > -10 then false
    else
      let historical_strength :=
        if closes ≠ [] ∧ qTruthy sma100 ∧ 60 ≤ closes.length then
          let lookback := takeLast 60 closes
          (List.range lookback.length).any (fun i =>
            let window :=
              if i < 59 then closes.take (closes.length - (60 - i)) else closes
            if 100 ≤ window.length then
              decide (lookback.getD i 0 > (takeLast 100 window).sum / 100)
            else false)
        else false
      if !historical_strength then false
      else
        let rsi_not_panic :=
          match rsi_value with
          | none => false
          | some r => decide (r > 20)
        let stabilizing :=
          if closes ≠ [] ∧ 5 ≤ closes.length then
            decide (current_price ≥ pyMin (takeLast 5 closes) * (49/50))
          else false
        rsi_not_panic || stabilizing

/-- `scoring.detect_cheap_on_winner` (v1.1): short-term pullback on an
intact long-term uptrend; truthiness makes a zero SMA falsy. -/
def detect_cheap_on_winner (current_price : ℚ) (sma20 sma100 : Option ℚ)
    (long_term_trend : Option TrendBias) (rsi_value : Option ℚ) : Bool :=
  match sma20, sma100, long_term_trend with
  | some s20, some s100, some t =>
    s20 != 0 && s100 != 0 &&
    decide (current_price < s20) && decide (current_price > s100) &&
    decide (t = TrendBias.UP) &&
    (match rsi_value with
     | none => true
     | some r => decide (r < 50))
  | _, _, _ => false

/-- `scoring.detect_proven_winner_capitulation` (v1.3): rally of at least
40 percent in the trailing 90 days, drop of more than 30 percent from the
high, RSI below 20, price within 10 percent of the rally start, and price
above the running SMA(100) at some index from the rally start on.  A zero
rally-start price would raise `ZeroDivisionError` in Python; total division
returns a rally gain of 0 there, which short-circuits to false the same way
any sub-40 rally does. -/
def detect_proven_winner_capitulation (current_price : ℚ) (closes : List ℚ)
    (sma100 : Option ℚ) (rsi_value : Option ℚ) (distance_from_high : Option ℚ) : Bool :=
  if closes = [] ∨ closes.length < 90 then false
  else
    match rsi_value with
    | none => false
    | some rsi =>
      if rsi ≥ 20 then false
      else
        match distance_from_high with
        | none => false
        | some dist =>
          if dist > -30 then false
          else
            let lookback_90d := takeLast 90 closes
            let rally_peak_price := pyMax lookback_90d
            let start := closes.length - 90
            let peak_idx := start + lookback_90d.findIdx (fun y => y == rally_peak_price)
            let prices_before_peak := (closes.drop start).take (peak_idx + 1 - start)
            if prices_before_peak.length < 30 then false
            else
              let rally_start_price := pyMin prices_before_peak
              let rally_start_idx :=
                start + prices_before_peak.findIdx (fun y => y == rally_start_price)
              let rally_gain_pct :=
                (rally_peak_price - rally_start_price) / rally_start_price * 100
              if rally_gain_pct < 40 then false
              else if current_price > rally_start_price * (11/10) then false
              else
                match sma100 with
                | none => false
                | some _ =>
                  (List.range (closes.length - rally_start_idx)).any (fun j =>
                    let i := rally_start_idx + j
                    if 100 ≤ i then
                      decide ((closes.getD i 0) >
                        ((closes.drop (i - 100)).take 100).sum / 100)
                    else false)

/-! ## Main scoring functions (`scoring.py`) -/

/-- The resilience scaling applied to the capitulation and post-shock
bonuses: `int(bonus * 1.2)` when the resilience count is at least 3. -/
def resilience_scaled_high (bonus resilience_count : ℤ) : ℤ :=
  if resilience_count ≥ RESILIENCE_HIGH then pyInt ((bonus : ℚ) * RESILIENCE_MULTIPLIER_HIGH)
  else bonus

/-- The resilience scaling applied to the recovery-pattern bonus:
`int(bonus * 1.2)` at high resilience, `int(bonus * 0.8)` at zero. -/
def resilience_scaled_full (bonus resilience_count : ℤ) : ℤ :=
  if resilience_count ≥ RESILIENCE_HIGH then pyInt ((bonus : ℚ) * RESILIENCE_MULTIPLIER_HIGH)
  else if resilience_count = 0 then pyInt ((bonus : ℚ) * RESILIENCE_MULTIPLIER_LOW)
  else bonus

/-- The accumulation of `score` in `calculate_trade_score` before the
capitulation / post-shock / cheap-winner bonuses are applied: MACD, the
contextual RSI pair, the SMA(10) position (guarded by float truthiness),
the 10-day trend, resilience-aware volatility, and the recovery bonus. -/
def trade_base_score (current_price : ℚ) (macd_bias : Option MACDBias)
    (rsi_value : Option ℚ) (rsi_bias : Option RSIBias) (sma10 sma50 : Option ℚ)
    (trend10_bias trend50_bias long_term_trend : Option TrendBias)
    (volatility_bias : Option VolatilityBias) (resilience_count : ℤ) : ℤ :=
  score_macd macd_bias TRADE_MACD_WEIGHT
  + (score_rsi_contextual rsi_value rsi_bias long_term_trend TRADE_RSI_WEIGHT).1
  + (score_rsi_contextual rsi_value rsi_bias long_term_trend TRADE_RSI_WEIGHT).2
  + (if qTruthy sma10 then
      score_sma_position current_price (sma10.getD 0) TRADE_SMA10_WEIGHT
     else 0)
  + score_trend trend10_bias TRADE_TREND10_WEIGHT
  + score_volatility_resilient volatility_bias resilience_count TRADE_VOLATILITY_WEIGHT "trade"
  + (if detect_recovery_pattern current_price sma10 sma50 trend10_bias trend50_bias then
      resilience_scaled_full TRADE_RECOVERY_BONUS resilience_count
     else 0)

/-- `scoring.normalize_score`: `round(((raw + max) / (max * 2)) * 100)`. -/
def normalize_score (raw_score max_points : ℤ) : ℤ :=
  pyRound (((raw_score : ℚ) + (max_points : ℚ)) / ((max_points : ℚ) * 2) * 100)

/-- `scoring.calculate_trade_score` (v1.3).  The turnaround variant adds the
capitulation bonus when detected, else the post-shock bonus; the BAU variant
only ever adds the post-shock bonus; both add the cheap-winner bonus; both
normalize with `max_points = 395`. -/
def calculate_trade_score (current_price : ℚ) (macd_bias : Option MACDBias)
    (macd_hist : Option ℚ) (rsi_value : Option ℚ) (rsi_bias : Option RSIBias)
    (sma10 sma20 sma50 sma100 : Option ℚ)
    (trend10_bias trend50_bias long_term_trend : Option TrendBias)
    (volatility_bias : Option VolatilityBias) (distance_from_high : Option ℚ)
    (resilience_count : ℤ) (closes : List ℚ) : ScoreResult :=
  let base := trade_base_score current_price macd_bias rsi_value rsi_bias sma10 sma50
    trend10_bias trend50_bias long_term_trend volatility_bias resilience_count
  let capitulation_detected :=
    detect_proven_winner_capitulation current_price closes sma100 rsi_value distance_from_high
  let post_shock_detected :=
    detect_post_shock_recovery current_price distance_from_high rsi_value macd_hist
      long_term_trend closes sma100
  let cheap_winner_detected :=
    detect_cheap_on_winner current_price sma20 sma100 long_term_trend rsi_value
  let turnaround_raw := base
    + (if capitulation_detected then
        resilience_scaled_high TRADE_CAPITULATION_BONUS resilience_count
       else if post_shock_detected then
        resilience_scaled_high TRADE_POST_SHOCK_BONUS resilience_count
       else 0)
    + (if cheap_winner_detected then TRADE_CHEAP_WINNER_BONUS else 0)
  let bau_raw := base
    + (if post_shock_detected then
        resilience_scaled_high TRADE_POST_SHOCK_BONUS resilience_count
       else 0)
    + (if cheap_winner_detected then TRADE_CHEAP_WINNER_BONUS else 0)
  let turnaround_active := capitulation_detected &&
    (match sma50 with
     | some s => decide (current_price < s)
     | none => false)
  { turnaround_raw := turnaround_raw
    turnaround_score := normalize_score turnaround_raw TRADE_MAX_POINTS
    bau_raw := bau_raw
    bau_score := normalize_score bau_raw TRADE_MAX_POINTS
    turnaround_active := turnaround_active }

/-- The long-term trend term of `calculate_investment_score` (plus or minus
25 points). -/
def inv_ltt_term (long_term_trend : Option TrendBias) : ℤ :=
  if long_term_trend = some TrendBias.UP then 25
  else if long_term_trend = some TrendBias.DOWN then -25
  else 0

/-- The resilience tiers of `calculate_investment_score` (15/25/35). -/
def inv_resilience_term (resilience_count : ℤ) : ℤ :=
  if resilience_count ≥ 5 then 35
  else if resilience_count ≥ 3 then 25
  else if resilience_count ≥ 1 then 15
  else 0

/-- The 1-year growth-rate tiers of `calculate_investment_score`. -/
def inv_growth_term (closes : List ℚ) : ℤ :=
  if closes ≠ [] ∧ 252 ≤ closes.length then
    match compute_growth_rate closes 252 with
    | none => 0
    | some growth_rate =>
      if growth_rate ≥ 100 then 30
      else if growth_rate ≥ 50 then 20
      else if growth_rate ≥ 20 then 10
      else if growth_rate > 0 then 5
      else -15
  else 0

/-- The rally-magnitude tiers of `calculate_investment_score` (15/30/50). -/
def inv_rally_term (closes : List ℚ) : ℤ :=
  if closes ≠ [] then
    match compute_rally_magnitude closes 90 with
    | none => 0
    | some rally_magnitude =>
      if rally_magnitude ≥ 100 then 50
      else if rally_magnitude ≥ 50 then 30
      else if rally_magnitude ≥ 30 then 15
      else 0
  else 0

/-- The return-to-highs tiers of `calculate_investment_score` (20/40). -/
def inv_rth_term (closes : List ℚ) : ℤ :=
  if closes ≠ [] then
    match compute_return_to_highs_frequency closes 180 with
    | none => 0
    | some return_to_highs =>
      if return_to_highs ≥ 50 then 40
      else if return_to_highs ≥ 30 then 20
      else 0
  else 0

/-- The trend-slope tiers of `calculate_investment_score` (10/20/30). -/
def inv_slope_term (closes : List ℚ) : ℤ :=
  if closes ≠ [] then
    match compute_trend_slope closes 100 with
    | none => 0
    | some trend_slope =>
      if trend_slope ≥ 100 then 30
      else if trend_slope ≥ 50 then 20
      else if trend_slope ≥ 20 then 10
      else 0
  else 0

/-- The wild-volatility-plus-resilience combo bonus (+25). -/
def inv_vol_combo_term (volatility_bias : Option VolatilityBias) (resilience_count : ℤ) : ℤ :=
  if volatility_bias = some VolatilityBias.WILD ∧ resilience_count ≥ 3 then 25 else 0

/-- The winner-premium bonus (+40 when at least 80 percent of days are near
highs and resilience is at least 3). -/
def inv_premium_term (closes : List ℚ) (resilience_count : ℤ) : ℤ :=
  if closes ≠ [] then
    match compute_return_to_highs_frequency closes 180 with
    | none => 0
    | some return_to_highs =>
      if return_to_highs ≥ 80 ∧ resilience_count ≥ 3 then 40 else 0
  else 0

/-- `scoring.calculate_investment_score` (v1.4/v1.4.1).  The base score sums
the eight innovation-growth terms; the pattern bonuses reuse the v1.3 logic
with inline constants 60 (capitulation and post-shock) and 15 (cheap
winner) and the same `int(bonus * 1.2)` resilience scaling; both variants
normalize with `max_points = 465`. -/
def calculate_investment_score (current_price : ℚ) (macd_bias : Option MACDBias)
    (macd_hist : Option ℚ) (rsi_value : Option ℚ) (rsi_bias : Option RSIBias)
    (sma10 sma20 sma50 sma100 : Option ℚ)
    (trend10_bias trend50_bias long_term_trend : Option TrendBias)
    (volatility_bias : Option VolatilityBias) (distance_from_high : Option ℚ)
    (resilience_count : ℤ) (closes : List ℚ) : ScoreResult :=
  let base := inv_ltt_term long_term_trend
    + inv_resilience_term resilience_count
    + inv_growth_term closes
    + inv_rally_term closes
    + inv_rth_term closes
    + inv_slope_term closes
    + inv_vol_combo_term volatility_bias resilience_count
    + inv_premium_term closes resilience_count
  let capitulation_detected :=
    detect_proven_winner_capitulation current_price closes sma100 rsi_value distance_from_high
  let post_shock_detected :=
    detect_post_shock_recovery current_price distance_from_high rsi_value macd_hist
      long_term_trend closes sma100
  let cheap_winner_detected :=
    detect_cheap_on_winner current_price sma20 sma100 long_term_trend rsi_value
  let turnaround_raw := base
    + (if capitulation_detected then resilience_scaled_high 60 resilience_count
       else if post_shock_detected then resilience_scaled_high 60 resilience_count
       else 0)
    + (if cheap_winner_detected then 15 else 0)
  let bau_raw := base
    + (if post_shock_detected then resilience_scaled_high 60 resilience_count else 0)
    + (if cheap_winner_detected then 15 else 0)
  let turnaround_active := capitulation_detected &&
    (match sma50 with
     | some s => decide (current_price < s)
     | none => false)
  { turnaround_raw := turnaround_raw
    turnaround_score := normalize_score turnaround_raw INV_MAX_POINTS
    bau_raw := bau_raw
    bau_score := normalize_score bau_raw INV_MAX_POINTS
    turnaround_active := turnaround_active }

/-- `scoring.get_rating_label`: the single six-tier threshold set of the
source (the signature takes only the score; there is no Trade versus
Investment distinction). -/
def get_rating_label (score : ℤ) : String :=
  if score ≥ 80 then "STRONG BUY"
  else if score ≥ 70 then "BUY"
  else if score ≥ 55 then "OUTPERFORM"
  else if score ≥ 45 then "HOLD"
  else if score ≥ 30 then "UNDERPERFORM"
  else "SELL"

/-! ## Indicator wiring (`diagnose.py` lines 86-98; identically in
`widgets/technical_panel.py` and `widgets/watchlist.py`): the canonical way
the repository turns a raw close series into score-calculator inputs. -/

/-- The Trade Score pipeline: compute every indicator from the close series
and feed `calculate_trade_score` exactly as `diagnose.py` does. -/
def trade_score_from_closes (closes : List ℚ) : ScoreResult :=
  calculate_trade_score (closes.getLast?.getD 0)
    ((compute_macd closes).map (·.bias))
    ((compute_macd closes).map (·.hist))
    ((compute_rsi closes 14).map (·.value))
    ((compute_rsi closes 14).map (·.bias))
    (compute_sma closes 10)
    (compute_sma closes 20)
    (compute_sma closes 50)
    (compute_sma closes 100)
    ((compute_trend closes 10).map (·.bias))
    ((compute_trend closes 50).map (·.bias))
    (compute_long_term_trend closes 100)
    ((compute_volatility closes).map (·.bias))
    (compute_distance_from_high closes 20)
    ((count_recovery_patterns closes 180 : ℕ) : ℤ)
    closes

/-- The Investment Score pipeline with the same indicator wiring. -/
def investment_score_from_closes (closes : List ℚ) : ScoreResult :=
  calculate_investment_score (closes.getLast?.getD 0)
    ((compute_macd closes).map (·.bias))
    ((compute_macd closes).map (·.hist))
    ((compute_rsi closes 14).map (·.value))
    ((compute_rsi closes 14).map (·.bias))
    (compute_sma closes 10)
    (compute_sma closes 20)
    (compute_sma closes 50)
    (compute_sma closes 100)
    ((compute_trend closes 10).map (·.bias))
    ((compute_trend closes 50).map (·.bias))
    (compute_long_term_trend closes 100)
    ((compute_volatility closes).map (·.bias))
    (compute_distance_from_high closes 20)
    ((count_recovery_patterns closes 180 : ℕ) : ℤ)
    closes

/-! ## Back-test harness (`backtest.py`).  The `prices_daily` store for one
ticker is a list of `(trade_date, close)` rows ordered by ascending date. -/

/-- The price fetch of `backtest.calculate_score_at_date`: rows strictly
before the as-of date, newest first, limited to `lookback_days + 50`,
reversed to chronological order, then cut to the trailing `lookback_days`. -/
def fetchClosesBefore (store : List (ℕ × ℚ)) (as_of_date lookback_days : ℕ) : List ℚ :=
  let rows := ((store.filter (fun r => r.1 < as_of_date)).reverse).take (lookback_days + 50)
  let closes := (rows.reverse).map (·.2)
  if lookback_days < closes.length then takeLast lookback_days closes else closes

/-- Python keyword-call check: a call binds every required parameter exactly
when each required name appears among the passed keywords; otherwise the
call raises `TypeError` before the body runs. -/
def pyCallBindsRequired (required passed : List String) : Bool :=
  required.all (fun p => passed.contains p)

/-- Python keyword-call check: every passed keyword must name a parameter of
the callee, else the call raises `TypeError`. -/
def pyKwargsAccepted (params passed : List String) : Bool :=
  passed.all (fun k => params.contains k)

/-- The parameters of `calculate_trade_score` that have no default value
(`scoring.py` lines 576-592). -/
def calculate_trade_score_required_params : List String :=
  ["current_price", "macd_bias", "macd_hist", "rsi_value", "rsi_bias",
   "sma10", "sma20", "sma50", "sma100", "trend10_bias", "trend50_bias",
   "long_term_trend", "volatility_bias"]

/-- The keyword arguments `backtest.calculate_score_at_date` passes to
`calculate_trade_score` (`backtest.py` lines 106-116). -/
def backtest_trade_call_kwargs : List String :=
  ["current_price", "macd_bias", "rsi_value", "rsi_bias", "sma10",
   "trend10_bias", "sma50", "trend50_bias", "volatility_bias"]

/-- Outcome of a Python call: a returned value or an uncaught `TypeError`. -/
inductive PyOutcome where
  | ret : Option (ℤ × ℤ) → PyOutcome
  | typeError : PyOutcome
deriving DecidableEq, Repr

/-- `backtest.calculate_score_at_date`: fetch the pre-date window, return
`None` below 50 points, and otherwise invoke the score calculators.  That
invocation omits the required parameters `macd_hist`, `sma20`, `sma100` and
`long_term_trend` (compare `calculate_trade_score_required_params` with
`backtest_trade_call_kwargs`) and additionally unpacks the returned
`ScoreResult` as a tuple, so in Python it raises `TypeError` whenever it is
reached; the embedding records that branch as `PyOutcome.typeError`. -/
def calculate_score_at_date (store : List (ℕ × ℚ)) (as_of_date : ℕ) : PyOutcome :=
  let closes := fetchClosesBefore store as_of_date 365
  if closes.length < 50 then PyOutcome.ret none
  else if pyCallBindsRequired calculate_trade_score_required_params backtest_trade_call_kwargs
  then PyOutcome.ret none
  else PyOutcome.typeError

/-- `backtest.get_price_at_date`: the close on the last row dated on or
before the target date (`trade_date <= ? ORDER BY trade_date DESC LIMIT 1`). -/
def get_price_at_date (store : List (ℕ × ℚ)) (target_date : ℕ) : Option ℚ :=
  ((store.filter (fun r => r.1 ≤ target_date)).getLast?).map (·.2)

/-- `backtest.calculate_forward_return`: simple return from `from_price` to
the price at `from_date + days_forward` (or the nearest prior trading day);
`None` when no such price exists or the starting price is zero. -/
def calculate_forward_return (store : List (ℕ × ℚ)) (from_date : ℕ)
    (from_price : ℚ) (days_forward : ℕ) : Option ℚ :=
  match get_price_at_date store (from_date + days_forward) with
  | none => none
  | some to_price =>
    if from_price = 0 then none
    else some ((to_price - from_price) / from_price)

/-- The parameters of `scoring.get_rating_label` (`scoring.py` line 925):
only `score`; the `is_trade_score` keyword that
`widgets/scores_panel.py` lines 138 and 151 pass does not exist. -/
def get_rating_label_params : List String := ["score"]

/-- Strict ascent of consecutive elements (used to state the monotone-series
claims about RSI and MACD). -/
def pairwiseLT : List ℚ → Prop
  | [] => True
  | [_] => True
  | a :: b :: t => a < b ∧ pairwiseLT (b :: t)

/-- Strict descent of consecutive elements. -/
def pairwiseGT : List ℚ → Prop
  | [] => True
  | [_] => True
  | a :: b :: t => a > b ∧ pairwiseGT (b :: t)

instance pairwiseLT.dec : (l : List ℚ) → Decidable (pairwiseLT l)
  | [] => isTrue trivial
  | [_] => isTrue trivial
  | a :: b :: t =>
    have : Decidable (pairwiseLT (b :: t)) := pairwiseLT.dec (b :: t)
    inferInstanceAs (Decidable (a < b ∧ pairwiseLT (b :: t)))

instance pairwiseGT.dec : (l : List ℚ) → Decidable (pairwiseGT l)
  | [] => isTrue trivial
  | [_] => isTrue trivial
  | a :: b :: t =>
    have : Decidable (pairwiseGT (b :: t)) := pairwiseGT.dec (b :: t)
    inferInstanceAs (Decidable (a > b ∧ pairwiseGT (b :: t)))

/-! ## General lemmas about the rounding helpers -/

theorem pyRound_le_of_le {q : ℚ} {M : ℤ} (h : q ≤ (M : ℚ)) : pyRound q ≤ M := by
  unfold pyRound
  have hfl : ⌊q + 1/2⌋ ≤ M := by
    have h2 : ⌊q + 1/2⌋ < M + 1 := by
      rw [Int.floor_lt]
      push_cast
      linarith
    omega
  split
  · omega
  · exact hfl

theorem pyRound_nonneg {q : ℚ} (h : 0 ≤ q) : 0 ≤ pyRound q := by
  unfold pyRound
  have hfl : 0 ≤ ⌊q + 1/2⌋ := by
    apply Int.floor_nonneg.2
    linarith
  split
  · next htie => omega
  · exact hfl

theorem pyRound_mono {x y : ℚ} (h : x ≤ y) : pyRound x ≤ pyRound y := by
  unfold pyRound
  have hfl : ⌊x + 1/2⌋ ≤ ⌊y + 1/2⌋ := Int.floor_le_floor (by linarith)
  split
  · next htx =>
    split
    · next hty => omega
    · next hty => omega
  · next htx =>
    split
    · next hty =>
      rcases lt_or_eq_of_le hfl with hlt | heq
      · omega
      · exfalso
        apply htx
        have hyv : y + 1/2 = ((⌊y + 1/2⌋ : ℤ) : ℚ) := hty.1
        have hxle : x + 1/2 ≤ y + 1/2 := by linarith
        have hxge : ((⌊x + 1/2⌋ : ℤ) : ℚ) ≤ x + 1/2 := Int.floor_le _
        have hxeq : x + 1/2 = ((⌊x + 1/2⌋ : ℤ) : ℚ) := by
          rw [heq] at hxge ⊢
          rw [hyv] at hxle
          exact le_antisymm hxle hxge
        exact ⟨hxeq, by rw [heq]; exact hty.2⟩
    · next hty => omega

/-- The core bound fact about `normalize_score`: raw scores inside
`[-max_points, max_points]` normalize into `[0, 100]`. -/
theorem normalize_score_bounds {raw m : ℤ} (hm : 0 < m) (h1 : -m ≤ raw) (h2 : raw ≤ m) :
    0 ≤ normalize_score raw m ∧ normalize_score raw m ≤ 100 := by
  unfold normalize_score
  have hm' : (0 : ℚ) < (m : ℚ) * 2 := by
    have : (0 : ℚ) < (m : ℚ) := by exact_mod_cast hm
    linarith
  have hnum0 : (0 : ℚ) ≤ (raw : ℚ) + (m : ℚ) := by
    have hc : ((-m : ℤ) : ℚ) ≤ ((raw : ℤ) : ℚ) := by exact_mod_cast h1
    push_cast at hc
    linarith
  have hnum1 : (raw : ℚ) + (m : ℚ) ≤ (m : ℚ) * 2 := by
    have hc : ((raw : ℤ) : ℚ) ≤ ((m : ℤ) : ℚ) := by exact_mod_cast h2
    linarith
  constructor
  · apply pyRound_nonneg
    positivity
  · apply pyRound_le_of_le
    have hdiv : ((raw : ℚ) + (m : ℚ)) / ((m : ℚ) * 2) ≤ 1 := by
      rw [div_le_one hm']
      exact hnum1
    calc ((raw : ℚ) + (m : ℚ)) / ((m : ℚ) * 2) * 100 ≤ 1 * 100 := by
          apply mul_le_mul_of_nonneg_right hdiv (by norm_num)
      _ = ((100 : ℤ) : ℚ) := by norm_num

/-- `normalize_score` is monotone in the raw score. -/
theorem normalize_score_mono {a b m : ℤ} (hm : 0 < m) (h : a ≤ b) :
    normalize_score a m ≤ normalize_score b m := by
  unfold normalize_score
  apply pyRound_mono
  have hm' : (0 : ℚ) < (m : ℚ) * 2 := by
    have : (0 : ℚ) < (m : ℚ) := by exact_mod_cast hm
    linarith
  have hab : ((a : ℚ) + (m : ℚ)) ≤ ((b : ℚ) + (m : ℚ)) := by
    have hc : ((a : ℤ) : ℚ) ≤ ((b : ℤ) : ℚ) := by exact_mod_cast h
    linarith
  have hdiv : ((a : ℚ) + (m : ℚ)) / ((m : ℚ) * 2) ≤ ((b : ℚ) + (m : ℚ)) / ((m : ℚ) * 2) :=
    div_le_div_of_nonneg_right hab hm'.le
  exact mul_le_mul_of_nonneg_right hdiv (by norm_num)

/-! ## Bounds of the individual score components -/

theorem score_macd_bounds (b : Option MACDBias) :
    -25 ≤ score_macd b TRADE_MACD_WEIGHT ∧ score_macd b TRADE_MACD_WEIGHT ≤ 25 := by
  rcases b with _ | bb
  · constructor <;> decide
  · cases bb <;> constructor <;> decide

theorem score_rsi_15_bounds (v : Option ℚ) (b : Option RSIBias) :
    -15 ≤ score_rsi v b 15 ∧ score_rsi v b 15 ≤ 15 := by
  rcases b with _ | bb
  · simp only [score_rsi]
    constructor <;> decide
  · rcases v with _ | vv
    · cases bb <;> simp only [score_rsi] <;> constructor <;> decide
    · cases bb <;> simp only [score_rsi] <;> constructor <;> decide

theorem score_rsi_contextual_bounds (v : Option ℚ) (b : Option RSIBias) (t : Option TrendBias) :
    (-15 ≤ (score_rsi_contextual v b t TRADE_RSI_WEIGHT).1 ∧
      (score_rsi_contextual v b t TRADE_RSI_WEIGHT).1 ≤ 15) ∧
    (0 ≤ (score_rsi_contextual v b t TRADE_RSI_WEIGHT).2 ∧
      (score_rsi_contextual v b t TRADE_RSI_WEIGHT).2 ≤ 10) := by
  have hw : TRADE_RSI_WEIGHT = 15 := rfl
  unfold score_rsi_contextual
  rw [hw]
  dsimp only
  split
  · refine ⟨score_rsi_15_bounds v b, ?_⟩
    dsimp only
    constructor <;> decide
  · split
    · next hcond2 =>
      obtain ⟨hb, -⟩ := hcond2
      subst hb
      dsimp only
      constructor
      · rcases v with _ | vv
        · simp only [score_rsi]
          constructor <;> decide
        · simp only [score_rsi]
          constructor <;> decide
      · constructor <;> decide
    · refine ⟨score_rsi_15_bounds v b, ?_⟩
      dsimp only
      constructor <;> decide

theorem score_sma_position_bounds (p s : ℚ) :
    -20 ≤ score_sma_position p s TRADE_SMA10_WEIGHT ∧
      score_sma_position p s TRADE_SMA10_WEIGHT ≤ 20 := by
  have hw : TRADE_SMA10_WEIGHT = 20 := rfl
  unfold score_sma_position
  rw [hw]
  split
  · constructor <;> decide
  · constructor
    · exact le_max_left _ _
    · exact max_le (by decide) ((min_le_left _ _))

theorem score_trend_bounds (t : Option TrendBias) :
    -20 ≤ score_trend t TRADE_TREND10_WEIGHT ∧ score_trend t TRADE_TREND10_WEIGHT ≤ 20 := by
  rcases t with _ | tt
  · constructor <;> decide
  · cases tt <;> constructor <;> decide

theorem score_volatility_trade_resilient_bounds (vb : Option VolatilityBias) (r : ℤ) :
    0 ≤ score_volatility_resilient vb r TRADE_VOLATILITY_WEIGHT "trade" ∧
      score_volatility_resilient vb r TRADE_VOLATILITY_WEIGHT "trade" ≤ 5 := by
  unfold score_volatility_resilient
  dsimp only
  have h1 : ¬(vb = some VolatilityBias.WILD ∧ ("trade" : String) = "investment") := by
    rintro ⟨-, hc⟩
    exact absurd hc (by decide)
  rw [if_neg h1, if_pos rfl]
  rcases vb with _ | bb
  · simp only [score_volatility_trade]
    constructor <;> decide
  · cases bb <;> simp only [score_volatility_trade] <;> constructor <;> decide

theorem resilience_scaled_full_20_bounds (r : ℤ) :
    0 ≤ resilience_scaled_full TRADE_RECOVERY_BONUS r ∧
      resilience_scaled_full TRADE_RECOVERY_BONUS r ≤ 24 := by
  unfold resilience_scaled_full
  split
  · constructor <;> decide
  · split
    · constructor <;> decide
    · constructor <;> decide

theorem resilience_scaled_high_205 (r : ℤ) :
    resilience_scaled_high 205 r = if r ≥ RESILIENCE_HIGH then 246 else 205 := by
  unfold resilience_scaled_high
  split
  · decide
  · rfl

theorem resilience_scaled_high_60 (r : ℤ) :
    resilience_scaled_high 60 r = if r ≥ RESILIENCE_HIGH then 72 else 60 := by
  unfold resilience_scaled_high
  split
  · decide
  · rfl

/-- The base accumulation of the Trade Score lies in `[-80, 119]`. -/
theorem trade_base_score_bounds (p : ℚ) (mb : Option MACDBias) (rv : Option ℚ)
    (rb : Option RSIBias) (s10 s50 : Option ℚ) (t10 t50 ltt : Option TrendBias)
    (vb : Option VolatilityBias) (rc : ℤ) :
    -80 ≤ trade_base_score p mb rv rb s10 s50 t10 t50 ltt vb rc ∧
      trade_base_score p mb rv rb s10 s50 t10 t50 ltt vb rc ≤ 119 := by
  unfold trade_base_score
  have h1 := score_macd_bounds mb
  have h2 := score_rsi_contextual_bounds rv rb ltt
  have h4 := score_trend_bounds t10
  have h5 := score_volatility_trade_resilient_bounds vb rc
  have h6 := resilience_scaled_full_20_bounds rc
  have h3 : -20 ≤ (if qTruthy s10 then
        score_sma_position p (s10.getD 0) TRADE_SMA10_WEIGHT else 0) ∧
      (if qTruthy s10 then score_sma_position p (s10.getD 0) TRADE_SMA10_WEIGHT else 0) ≤ 20 := by
    split
    · exact score_sma_position_bounds p (s10.getD 0)
    · constructor <;> decide
  have h7 : 0 ≤ (if detect_recovery_pattern p s10 s50 t10 t50 then
        resilience_scaled_full TRADE_RECOVERY_BONUS rc else 0) ∧
      (if detect_recovery_pattern p s10 s50 t10 t50 then
        resilience_scaled_full TRADE_RECOVERY_BONUS rc else 0) ≤ 24 := by
    split
    · exact h6
    · constructor <;> decide
  omega

theorem inv_ltt_term_bounds (t : Option TrendBias) :
    -25 ≤ inv_ltt_term t ∧ inv_ltt_term t ≤ 25 := by
  unfold inv_ltt_term
  split
  · constructor <;> decide
  · split
    · constructor <;> decide
    · constructor <;> decide

theorem inv_resilience_term_bounds (r : ℤ) :
    0 ≤ inv_resilience_term r ∧ inv_resilience_term r ≤ 35 := by
  unfold inv_resilience_term
  split
  · constructor <;> decide
  · split
    · constructor <;> decide
    · split
      · constructor <;> decide
      · constructor <;> decide

theorem inv_growth_term_bounds (c : List ℚ) :
    -15 ≤ inv_growth_term c ∧ inv_growth_term c ≤ 30 := by
  unfold inv_growth_term
  split
  · split
    · constructor <;> decide
    · split
      · constructor <;> decide
      · split
        · constructor <;> decide
        · split
          · constructor <;> decide
          · split
            · constructor <;> decide
            · constructor <;> decide
  · constructor <;> decide

theorem inv_rally_term_bounds (c : List ℚ) :
    0 ≤ inv_rally_term c ∧ inv_rally_term c ≤ 50 := by
  unfold inv_rally_term
  split
  · split
    · constructor <;> decide
    · split
      · constructor <;> decide
      · split
        · constructor <;> decide
        · split
          · constructor <;> decide
          · constructor <;> decide
  · constructor <;> decide

theorem inv_rth_term_bounds (c : List ℚ) :
    0 ≤ inv_rth_term c ∧ inv_rth_term c ≤ 40 := by
  unfold inv_rth_term
  split
  · split
    · constructor <;> decide
    · split
      · constructor <;> decide
      · split
        · constructor <;> decide
        · constructor <;> decide
  · constructor <;> decide

theorem inv_slope_term_bounds (c : List ℚ) :
    0 ≤ inv_slope_term c ∧ inv_slope_term c ≤ 30 := by
  unfold inv_slope_term
  split
  · split
    · constructor <;> decide
    · split
      · constructor <;> decide
      · split
        · constructor <;> decide
        · split
          · constructor <;> decide
          · constructor <;> decide
  · constructor <;> decide

theorem inv_vol_combo_term_bounds (vb : Option VolatilityBias) (r : ℤ) :
    0 ≤ inv_vol_combo_term vb r ∧ inv_vol_combo_term vb r ≤ 25 := by
  unfold inv_vol_combo_term
  split
  · constructor <;> decide
  · constructor <;> decide

theorem inv_premium_term_bounds (c : List ℚ) (r : ℤ) :
    0 ≤ inv_premium_term c r ∧ inv_premium_term c r ≤ 40 := by
  unfold inv_premium_term
  split
  · split
    · constructor <;> decide
    · split
      · constructor <;> decide
      · constructor <;> decide
  · constructor <;> decide

/-- The capitulation-else-post-shock bonus of the Trade Score lies in
`[0, 246]`. -/
theorem trade_pattern_bonus_bounds (c1 c2 : Bool) (rc : ℤ) :
    0 ≤ (if c1 then resilience_scaled_high 205 rc
         else if c2 then resilience_scaled_high 60 rc else 0) ∧
      (if c1 then resilience_scaled_high 205 rc
       else if c2 then resilience_scaled_high 60 rc else 0) ≤ 246 := by
  rw [resilience_scaled_high_205, resilience_scaled_high_60]
  split_ifs <;> constructor <;> decide

/-- The capitulation-else-post-shock bonus of the Investment Score lies in
`[0, 72]`. -/
theorem inv_pattern_bonus_bounds (c1 c2 : Bool) (rc : ℤ) :
    0 ≤ (if c1 then resilience_scaled_high 60 rc
         else if c2 then resilience_scaled_high 60 rc else 0) ∧
      (if c1 then resilience_scaled_high 60 rc
       else if c2 then resilience_scaled_high 60 rc else 0) ≤ 72 := by
  rw [resilience_scaled_high_60]
  split_ifs <;> constructor <;> decide

/-- The post-shock-only bonus (BAU side) lies in `[0, 72]`. -/
theorem bau_pattern_bonus_bounds (c2 : Bool) (rc : ℤ) :
    0 ≤ (if c2 then resilience_scaled_high 60 rc else 0) ∧
      (if c2 then resilience_scaled_high 60 rc else 0) ≤ 72 := by
  rw [resilience_scaled_high_60]
  split_ifs <;> constructor <;> decide

theorem cheap_bonus_bounds (c : Bool) :
    0 ≤ (if c then (15 : ℤ) else 0) ∧ (if c then (15 : ℤ) else 0) ≤ 15 := by
  split <;> constructor <;> decide

/-- Raw Trade Scores lie inside `[-395, 395]` (in fact inside `[-80, 380]`). -/
theorem calculate_trade_score_raw_bounds (p : ℚ) (mb : Option MACDBias) (mh : Option ℚ)
    (rv : Option ℚ) (rb : Option RSIBias) (s10 s20 s50 s100 : Option ℚ)
    (t10 t50 ltt : Option TrendBias) (vb : Option VolatilityBias) (dfh : Option ℚ)
    (rc : ℤ) (cl : List ℚ) :
    (-395 ≤ (calculate_trade_score p mb mh rv rb s10 s20 s50 s100 t10 t50 ltt vb dfh rc cl).turnaround_raw ∧
      (calculate_trade_score p mb mh rv rb s10 s20 s50 s100 t10 t50 ltt vb dfh rc cl).turnaround_raw ≤ 395) ∧
    (-395 ≤ (calculate_trade_score p mb mh rv rb s10 s20 s50 s100 t10 t50 ltt vb dfh rc cl).bau_raw ∧
      (calculate_trade_score p mb mh rv rb s10 s20 s50 s100 t10 t50 ltt vb dfh rc cl).bau_raw ≤ 395) := by
  unfold calculate_trade_score
  dsimp only
  simp only [TRADE_CAPITULATION_BONUS, TRADE_POST_SHOCK_BONUS, TRADE_CHEAP_WINNER_BONUS]
  have hb := trade_base_score_bounds p mb rv rb s10 s50 t10 t50 ltt vb rc
  have hA := trade_pattern_bonus_bounds
    (detect_proven_winner_capitulation p cl s100 rv dfh)
    (detect_post_shock_recovery p dfh rv mh ltt cl s100) rc
  have hB := bau_pattern_bonus_bounds
    (detect_post_shock_recovery p dfh rv mh ltt cl s100) rc
  have hC := cheap_bonus_bounds (detect_cheap_on_winner p s20 s100 ltt rv)
  omega

/-- Raw Investment Scores lie inside `[-465, 465]` (in fact `[-40, 362]`). -/
theorem calculate_investment_score_raw_bounds (p : ℚ) (mb : Option MACDBias) (mh : Option ℚ)
    (rv : Option ℚ) (rb : Option RSIBias) (s10 s20 s50 s100 : Option ℚ)
    (t10 t50 ltt : Option TrendBias) (vb : Option VolatilityBias) (dfh : Option ℚ)
    (rc : ℤ) (cl : List ℚ) :
    (-465 ≤ (calculate_investment_score p mb mh rv rb s10 s20 s50 s100 t10 t50 ltt vb dfh rc cl).turnaround_raw ∧
      (calculate_investment_score p mb mh rv rb s10 s20 s50 s100 t10 t50 ltt vb dfh rc cl).turnaround_raw ≤ 465) ∧
    (-465 ≤ (calculate_investment_score p mb mh rv rb s10 s20 s50 s100 t10 t50 ltt vb dfh rc cl).bau_raw ∧
      (calculate_investment_score p mb mh rv rb s10 s20 s50 s100 t10 t50 ltt vb dfh rc cl).bau_raw ≤ 465) := by
  unfold calculate_investment_score
  dsimp only
  have h1 := inv_ltt_term_bounds ltt
  have h2 := inv_resilience_term_bounds rc
  have h3 := inv_growth_term_bounds cl
  have h4 := inv_rally_term_bounds cl
  have h5 := inv_rth_term_bounds cl
  have h6 := inv_slope_term_bounds cl
  have h7 := inv_vol_combo_term_bounds vb rc
  have h8 := inv_premium_term_bounds cl rc
  have hA := inv_pattern_bonus_bounds
    (detect_proven_winner_capitulation p cl s100 rv dfh)
    (detect_post_shock_recovery p dfh rv mh ltt cl s100) rc
  have hB := bau_pattern_bonus_bounds
    (detect_post_shock_recovery p dfh rv mh ltt cl s100) rc
  have hC := cheap_bonus_bounds (detect_cheap_on_winner p s20 s100 ltt rv)
  omega

/-- C1: for every valid input to `calculate_trade_score` and to
`calculate_investment_score`, the returned `ScoreResult` satisfies
`0 ≤ bau_score ≤ 100` and `0 ≤ turnaround_score ≤ 100`; this rests on every
reachable raw score lying inside `[-max_points, max_points]` for the
calculator's `max_points` constant (395 for Trade, 465 for Investment),
since `normalize_score` applies no clamp. -/
theorem iceberg_scores_within_bounds (p : ℚ) (mb : Option MACDBias) (mh : Option ℚ)
    (rv : Option ℚ) (rb : Option RSIBias) (s10 s20 s50 s100 : Option ℚ)
    (t10 t50 ltt : Option TrendBias) (vb : Option VolatilityBias) (dfh : Option ℚ)
    (rc : ℤ) (cl : List ℚ) :
    (0 ≤ (calculate_trade_score p mb mh rv rb s10 s20 s50 s100 t10 t50 ltt vb dfh rc cl).bau_score ∧
      (calculate_trade_score p mb mh rv rb s10 s20 s50 s100 t10 t50 ltt vb dfh rc cl).bau_score ≤ 100) ∧
    (0 ≤ (calculate_trade_score p mb mh rv rb s10 s20 s50 s100 t10 t50 ltt vb dfh rc cl).turnaround_score ∧
      (calculate_trade_score p mb mh rv rb s10 s20 s50 s100 t10 t50 ltt vb dfh rc cl).turnaround_score ≤ 100) ∧
    (0 ≤ (calculate_investment_score p mb mh rv rb s10 s20 s50 s100 t10 t50 ltt vb dfh rc cl).bau_score ∧
      (calculate_investment_score p mb mh rv rb s10 s20 s50 s100 t10 t50 ltt vb dfh rc cl).bau_score ≤ 100) ∧
    (0 ≤ (calculate_investment_score p mb mh rv rb s10 s20 s50 s100 t10 t50 ltt vb dfh rc cl).turnaround_score ∧
      (calculate_investment_score p mb mh rv rb s10 s20 s50 s100 t10 t50 ltt vb dfh rc cl).turnaround_score ≤ 100) := by
  have ht := calculate_trade_score_raw_bounds p mb mh rv rb s10 s20 s50 s100 t10 t50 ltt vb dfh rc cl
  have hi := calculate_investment_score_raw_bounds p mb mh rv rb s10 s20 s50 s100 t10 t50 ltt vb dfh rc cl
  have et : (calculate_trade_score p mb mh rv rb s10 s20 s50 s100 t10 t50 ltt vb dfh rc cl).turnaround_score =
      normalize_score (calculate_trade_score p mb mh rv rb s10 s20 s50 s100 t10 t50 ltt vb dfh rc cl).turnaround_raw
        TRADE_MAX_POINTS := rfl
  have et2 : (calculate_trade_score p mb mh rv rb s10 s20 s50 s100 t10 t50 ltt vb dfh rc cl).bau_score =
      normalize_score (calculate_trade_score p mb mh rv rb s10 s20 s50 s100 t10 t50 ltt vb dfh rc cl).bau_raw
        TRADE_MAX_POINTS := rfl
  have ei : (calculate_investment_score p mb mh rv rb s10 s20 s50 s100 t10 t50 ltt vb dfh rc cl).turnaround_score =
      normalize_score (calculate_investment_score p mb mh rv rb s10 s20 s50 s100 t10 t50 ltt vb dfh rc cl).turnaround_raw
        INV_MAX_POINTS := rfl
  have ei2 : (calculate_investment_score p mb mh rv rb s10 s20 s50 s100 t10 t50 ltt vb dfh rc cl).bau_score =
      normalize_score (calculate_investment_score p mb mh rv rb s10 s20 s50 s100 t10 t50 ltt vb dfh rc cl).bau_raw
        INV_MAX_POINTS := rfl
  rw [et, et2, ei, ei2]
  refine ⟨?_, ?_, ?_, ?_⟩
  · exact normalize_score_bounds (by decide) ht.2.1 ht.2.2
  · exact normalize_score_bounds (by decide) ht.1.1 ht.1.2
  · exact normalize_score_bounds (by decide) hi.2.1 hi.2.2
  · exact normalize_score_bounds (by decide) hi.1.1 hi.1.2

/-- The BAU pattern bonus never exceeds the turnaround pattern bonus
(Trade weights: capitulation 205, post-shock 60). -/
theorem trade_bonus_dominates (c1 c2 : Bool) (rc : ℤ) :
    (if c2 then resilience_scaled_high 60 rc else 0) ≤
      (if c1 then resilience_scaled_high 205 rc
       else if c2 then resilience_scaled_high 60 rc else 0) := by
  rw [resilience_scaled_high_205, resilience_scaled_high_60]
  split_ifs <;> omega

/-- The BAU pattern bonus never exceeds the turnaround pattern bonus
(Investment weights: both 60). -/
theorem inv_bonus_dominates (c1 c2 : Bool) (rc : ℤ) :
    (if c2 then resilience_scaled_high 60 rc else 0) ≤
      (if c1 then resilience_scaled_high 60 rc
       else if c2 then resilience_scaled_high 60 rc else 0) := by
  rw [resilience_scaled_high_60]
  split_ifs <;> omega

/-- C10: for every input to `calculate_trade_score` and to
`calculate_investment_score`, the turnaround variant dominates the BAU
variant (`bau_raw ≤ turnaround_raw` and `bau_score ≤ turnaround_score`),
and when the ProvenWinnerCapitulation pattern is not detected the two
variants coincide exactly. -/
theorem turnaround_dominates_bau (p : ℚ) (mb : Option MACDBias) (mh : Option ℚ)
    (rv : Option ℚ) (rb : Option RSIBias) (s10 s20 s50 s100 : Option ℚ)
    (t10 t50 ltt : Option TrendBias) (vb : Option VolatilityBias) (dfh : Option ℚ)
    (rc : ℤ) (cl : List ℚ) :
    ((calculate_trade_score p mb mh rv rb s10 s20 s50 s100 t10 t50 ltt vb dfh rc cl).bau_raw ≤
      (calculate_trade_score p mb mh rv rb s10 s20 s50 s100 t10 t50 ltt vb dfh rc cl).turnaround_raw ∧
     (calculate_trade_score p mb mh rv rb s10 s20 s50 s100 t10 t50 ltt vb dfh rc cl).bau_score ≤
      (calculate_trade_score p mb mh rv rb s10 s20 s50 s100 t10 t50 ltt vb dfh rc cl).turnaround_score ∧
     (detect_proven_winner_capitulation p cl s100 rv dfh = false →
       (calculate_trade_score p mb mh rv rb s10 s20 s50 s100 t10 t50 ltt vb dfh rc cl).turnaround_raw =
         (calculate_trade_score p mb mh rv rb s10 s20 s50 s100 t10 t50 ltt vb dfh rc cl).bau_raw ∧
       (calculate_trade_score p mb mh rv rb s10 s20 s50 s100 t10 t50 ltt vb dfh rc cl).turnaround_score =
         (calculate_trade_score p mb mh rv rb s10 s20 s50 s100 t10 t50 ltt vb dfh rc cl).bau_score)) ∧
    ((calculate_investment_score p mb mh rv rb s10 s20 s50 s100 t10 t50 ltt vb dfh rc cl).bau_raw ≤
      (calculate_investment_score p mb mh rv rb s10 s20 s50 s100 t10 t50 ltt vb dfh rc cl).turnaround_raw ∧
     (calculate_investment_score p mb mh rv rb s10 s20 s50 s100 t10 t50 ltt vb dfh rc cl).bau_score ≤
      (calculate_investment_score p mb mh rv rb s10 s20 s50 s100 t10 t50 ltt vb dfh rc cl).turnaround_score ∧
     (detect_proven_winner_capitulation p cl s100 rv dfh = false →
       (calculate_investment_score p mb mh rv rb s10 s20 s50 s100 t10 t50 ltt vb dfh rc cl).turnaround_raw =
         (calculate_investment_score p mb mh rv rb s10 s20 s50 s100 t10 t50 ltt vb dfh rc cl).bau_raw ∧
       (calculate_investment_score p mb mh rv rb s10 s20 s50 s100 t10 t50 ltt vb dfh rc cl).turnaround_score =
         (calculate_investment_score p mb mh rv rb s10 s20 s50 s100 t10 t50 ltt vb dfh rc cl).bau_score)) := by
  constructor
  · unfold calculate_trade_score
    dsimp only
    simp only [TRADE_CAPITULATION_BONUS, TRADE_POST_SHOCK_BONUS, TRADE_CHEAP_WINNER_BONUS]
    have hdom := trade_bonus_dominates
      (detect_proven_winner_capitulation p cl s100 rv dfh)
      (detect_post_shock_recovery p dfh rv mh ltt cl s100) rc
    refine ⟨by omega, normalize_score_mono (by decide) (by omega), ?_⟩
    intro h
    rw [h]
    simp only [Bool.false_eq_true, if_false]
    exact ⟨trivial, trivial⟩
  · unfold calculate_investment_score
    dsimp only
    have hdom := inv_bonus_dominates
      (detect_proven_winner_capitulation p cl s100 rv dfh)
      (detect_post_shock_recovery p dfh rv mh ltt cl s100) rc
    refine ⟨by omega, normalize_score_mono (by decide) (by omega), ?_⟩
    intro h
    rw [h]
    simp only [Bool.false_eq_true, if_false]
    exact ⟨trivial, trivial⟩

/-- When the turnaround flag is off, the display accessors select the BAU
variant. -/
theorem display_eq_bau_of_inactive (r : ScoreResult) (h : r.turnaround_active = false) :
    r.display_score = r.bau_score ∧ r.display_raw = r.bau_raw := by
  unfold ScoreResult.display_score ScoreResult.display_raw
  rw [h]
  simp

/-- The turnaround flag of both calculators equals
`capitulation && sma50 present && price < sma50`. -/
theorem turnaround_active_eq (p : ℚ) (mb : Option MACDBias) (mh : Option ℚ)
    (rv : Option ℚ) (rb : Option RSIBias) (s10 s20 s50 s100 : Option ℚ)
    (t10 t50 ltt : Option TrendBias) (vb : Option VolatilityBias) (dfh : Option ℚ)
    (rc : ℤ) (cl : List ℚ) :
    (calculate_trade_score p mb mh rv rb s10 s20 s50 s100 t10 t50 ltt vb dfh rc cl).turnaround_active =
      (detect_proven_winner_capitulation p cl s100 rv dfh &&
        (match s50 with | some s => decide (p < s) | none => false)) ∧
    (calculate_investment_score p mb mh rv rb s10 s20 s50 s100 t10 t50 ltt vb dfh rc cl).turnaround_active =
      (detect_proven_winner_capitulation p cl s100 rv dfh &&
        (match s50 with | some s => decide (p < s) | none => false)) := by
  constructor <;> rfl

/-- C5: for every input to both calculators, `turnaround_active` is true
exactly when ProvenWinnerCapitulation is detected, the SMA-50 is available
and the price is below it; whenever the flag is false, the display
properties return the BAU variant. -/
theorem turnaround_gating (p : ℚ) (mb : Option MACDBias) (mh : Option ℚ)
    (rv : Option ℚ) (rb : Option RSIBias) (s10 s20 s50 s100 : Option ℚ)
    (t10 t50 ltt : Option TrendBias) (vb : Option VolatilityBias) (dfh : Option ℚ)
    (rc : ℤ) (cl : List ℚ) :
    ((calculate_trade_score p mb mh rv rb s10 s20 s50 s100 t10 t50 ltt vb dfh rc cl).turnaround_active = true ↔
      (detect_proven_winner_capitulation p cl s100 rv dfh = true ∧
        ∃ s, s50 = some s ∧ p < s)) ∧
    ((calculate_investment_score p mb mh rv rb s10 s20 s50 s100 t10 t50 ltt vb dfh rc cl).turnaround_active = true ↔
      (detect_proven_winner_capitulation p cl s100 rv dfh = true ∧
        ∃ s, s50 = some s ∧ p < s)) ∧
    ((calculate_trade_score p mb mh rv rb s10 s20 s50 s100 t10 t50 ltt vb dfh rc cl).turnaround_active = false →
      (calculate_trade_score p mb mh rv rb s10 s20 s50 s100 t10 t50 ltt vb dfh rc cl).display_score =
        (calculate_trade_score p mb mh rv rb s10 s20 s50 s100 t10 t50 ltt vb dfh rc cl).bau_score ∧
      (calculate_trade_score p mb mh rv rb s10 s20 s50 s100 t10 t50 ltt vb dfh rc cl).display_raw =
        (calculate_trade_score p mb mh rv rb s10 s20 s50 s100 t10 t50 ltt vb dfh rc cl).bau_raw) ∧
    ((calculate_investment_score p mb mh rv rb s10 s20 s50 s100 t10 t50 ltt vb dfh rc cl).turnaround_active = false →
      (calculate_investment_score p mb mh rv rb s10 s20 s50 s100 t10 t50 ltt vb dfh rc cl).display_score =
        (calculate_investment_score p mb mh rv rb s10 s20 s50 s100 t10 t50 ltt vb dfh rc cl).bau_score ∧
      (calculate_investment_score p mb mh rv rb s10 s20 s50 s100 t10 t50 ltt vb dfh rc cl).display_raw =
        (calculate_investment_score p mb mh rv rb s10 s20 s50 s100 t10 t50 ltt vb dfh rc cl).bau_raw) := by
  obtain ⟨ht, hi⟩ := turnaround_active_eq p mb mh rv rb s10 s20 s50 s100 t10 t50 ltt vb dfh rc cl
  refine ⟨?_, ?_, display_eq_bau_of_inactive _, display_eq_bau_of_inactive _⟩
  · rw [ht]
    rcases s50 with _ | s
    · simp
    · simp [Bool.and_eq_true, decide_eq_true_iff]
  · rw [hi]
    rcases s50 with _ | s
    · simp
    · simp [Bool.and_eq_true, decide_eq_true_iff]

/-- C4 (code bug): the source has a single six-tier threshold set used for
both score types: a Trade Score of 75 maps to BUY, not STRONG BUY, 74 also
maps to BUY, and STRONG BUY starts only at 80; moreover the
`is_trade_score` keyword that the scores panel passes is not a parameter of
`get_rating_label`, so that call raises `TypeError` in Python. -/
theorem rating_label_single_threshold_set :
    get_rating_label 75 = "BUY" ∧ get_rating_label 74 = "BUY" ∧
    get_rating_label 80 = "STRONG BUY" ∧ get_rating_label 79 = "BUY" ∧
    pyKwargsAccepted get_rating_label_params ["is_trade_score"] = false := by
  refine ⟨by decide, by decide, by decide, by decide, by decide⟩

/-- C2 (code bug): the call to the score calculators inside
`backtest.calculate_score_at_date` leaves the required parameters
`macd_hist`, `sma20`, `sma100` and `long_term_trend` unbound, so whenever at
least 50 prices exist strictly before the as-of date the function raises
`TypeError` instead of returning a `(trade_score, investment_score)` pair
(the same call also unpacks the returned `ScoreResult` as a tuple, a second
`TypeError`). -/
theorem backtest_scoring_call_raises :
    (pyCallBindsRequired calculate_trade_score_required_params backtest_trade_call_kwargs = false ∧
      "macd_hist" ∈ calculate_trade_score_required_params ∧
      "macd_hist" ∉ backtest_trade_call_kwargs ∧
      "sma20" ∉ backtest_trade_call_kwargs ∧
      "sma100" ∉ backtest_trade_call_kwargs ∧
      "long_term_trend" ∉ backtest_trade_call_kwargs) ∧
    (∀ (store : List (ℕ × ℚ)) (as_of_date : ℕ),
      50 ≤ (fetchClosesBefore store as_of_date 365).length →
      calculate_score_at_date store as_of_date = PyOutcome.typeError) := by
  refine ⟨⟨by decide, by decide, by decide, by decide, by decide, by decide⟩, ?_⟩
  intro store as_of_date h
  unfold calculate_score_at_date
  rw [if_neg (by omega)]
  rw [if_neg (by decide)]

/-- C3: no look-ahead bias in `calculate_score_at_date`: two price stores
that agree on every row dated strictly before the as-of date produce the
same fetched window, hence the same outcome of `calculate_score_at_date`
and the same scores from the engine pipeline run on that window. -/
theorem score_at_date_no_lookahead (s1 s2 : List (ℕ × ℚ)) (as_of_date : ℕ)
    (h : s1.filter (fun r => r.1 < as_of_date) = s2.filter (fun r => r.1 < as_of_date)) :
    fetchClosesBefore s1 as_of_date 365 = fetchClosesBefore s2 as_of_date 365 ∧
    calculate_score_at_date s1 as_of_date = calculate_score_at_date s2 as_of_date ∧
    trade_score_from_closes (fetchClosesBefore s1 as_of_date 365) =
      trade_score_from_closes (fetchClosesBefore s2 as_of_date 365) ∧
    investment_score_from_closes (fetchClosesBefore s1 as_of_date 365) =
      investment_score_from_closes (fetchClosesBefore s2 as_of_date 365) := by
  have hf : fetchClosesBefore s1 as_of_date 365 = fetchClosesBefore s2 as_of_date 365 := by
    unfold fetchClosesBefore
    rw [h]
  refine ⟨hf, ?_, by rw [hf], by rw [hf]⟩
  unfold calculate_score_at_date
  rw [hf]

theorem score_at_date_no_lookahead_witness :
    ([((0 : ℕ), (10 : ℚ)), (5, 20)].filter (fun r => r.1 < 3) =
      [((0 : ℕ), (10 : ℚ)), (5, 99)].filter (fun r => r.1 < 3)) ∧
    calculate_score_at_date [((0 : ℕ), (10 : ℚ)), (5, 20)] 3 =
      calculate_score_at_date [((0 : ℕ), (10 : ℚ)), (5, 99)] 3 :=
  ⟨by decide, (score_at_date_no_lookahead [((0 : ℕ), (10 : ℚ)), (5, 20)]
    [((0 : ℕ), (10 : ℚ)), (5, 99)] 3 (by decide)).2.1⟩

theorem backtest_scoring_call_raises_witness :
    50 ≤ (fetchClosesBefore ((List.range 60).map (fun i => (i, (100 : ℚ)))) 100 365).length ∧
    calculate_score_at_date ((List.range 60).map (fun i => (i, (100 : ℚ)))) 100 =
      PyOutcome.typeError :=
  ⟨by decide, backtest_scoring_call_raises.2
    ((List.range 60).map (fun i => (i, (100 : ℚ)))) 100 (by decide)⟩

/-- C7 counterexample: for a store whose only row is at the sample date
itself (no future data at all), the 14-day forward return is `some 0`, not
`None`: `get_price_at_date` has no lower bound, so the nearest prior
trading day can precede the sample date. -/
theorem forward_return_none_counterexample :
    calculate_forward_return [((0 : ℕ), (100 : ℚ))] 0 100 14 = some 0 ∧
    (∀ r ∈ [((0 : ℕ), (100 : ℚ))], r.1 ≤ 0) := by
  constructor
  · decide
  · decide

/-- C7 amended: `calculate_forward_return` returns `(P2 - P) / P` for the
price `P2` on the target date or the nearest available prior trading day
(which may be on or before the sample date itself), and returns `None`
exactly when the store has no row at all dated on or before
`from_date + days_forward` or the starting price is zero; for a series
constant at 100 with a single jump to 110 exactly 14 days after the sample
date, the 2-week return is 1/10. -/
theorem forward_return_characterization (store : List (ℕ × ℚ))
    (from_date days_forward : ℕ) (from_price : ℚ) :
    (calculate_forward_return store from_date from_price days_forward = none ↔
      (store.filter (fun r => r.1 ≤ from_date + days_forward) = [] ∨ from_price = 0)) ∧
    calculate_forward_return
      (((List.range 14).map (fun i => (i, (100 : ℚ)))) ++ [(14, 110)]) 0 100 14 =
      some (1/10) := by
  constructor
  · unfold calculate_forward_return get_price_at_date
    rcases hl : (store.filter (fun r => r.1 ≤ from_date + days_forward)).getLast? with _ | r
    · have hnil : store.filter (fun r => r.1 ≤ from_date + days_forward) = [] :=
        List.getLast?_eq_none_iff.mp hl
      rw [hl]
      simp [hnil]
    · have hne : store.filter (fun r => r.1 ≤ from_date + days_forward) ≠ [] := by
        intro hc
        rw [hc] at hl
        simp at hl
      rw [hl]
      simp only [Option.map_some']
      constructor
      · intro hres
        right
        by_contra hp
        rw [if_neg hp] at hres
        simp at hres
      · rintro (hc | hp)
        · exact absurd hc hne
        · rw [if_pos hp]
  · decide

/-- C6 counterexample: the constant 5-point series does not yield the
claimed neutral `{50, 50, 50, 50, False}`: raw scores start at 0 (not 50)
and the Calm-volatility term contributes +5, so the result is
`{5, 51, 5, 51, False}`. -/
theorem trade_score_five_constant_counterexample :
    trade_score_from_closes [100, 100, 100, 100, 100] = ScoreResult.mk 5 51 5 51 false ∧
    trade_score_from_closes [100, 100, 100, 100, 100] ≠ ScoreResult.mk 50 50 50 50 false := by
  constructor
  · decide
  · decide

/-- C6 amended: for every 5-point price series the Trade Score pipeline
returns no pattern activity (`turnaround_active = false`), equal turnaround
and BAU variants, raw scores equal to the volatility contribution (0, or 5
when the volatility bias is Calm or Wild), and normalized scores 50
respectively 51 — not the `{50, 50, 50, 50, False}` the spec states. -/
theorem trade_score_five_points_neutral (closes : List ℚ) (h : closes.length = 5) :
    (trade_score_from_closes closes).turnaround_active = false ∧
    (trade_score_from_closes closes).turnaround_raw = (trade_score_from_closes closes).bau_raw ∧
    (trade_score_from_closes closes).turnaround_score = (trade_score_from_closes closes).bau_score ∧
    (((trade_score_from_closes closes).bau_raw = 0 ∧
        (trade_score_from_closes closes).bau_score = 50) ∨
      ((trade_score_from_closes closes).bau_raw = 5 ∧
        (trade_score_from_closes closes).bau_score = 51)) := by
  match closes, h with
  | [a, b, c, d, e], _ =>
  have hmacd : compute_macd [a, b, c, d, e] = none := by
    unfold compute_macd
    rw [if_pos (by simp)]
  have hrsi : compute_rsi [a, b, c, d, e] 14 = none := by
    unfold compute_rsi
    rw [if_pos (by simp)]
  have hsma10 : compute_sma [a, b, c, d, e] 10 = none := by
    unfold compute_sma
    rw [if_pos (by simp)]
  have hsma20 : compute_sma [a, b, c, d, e] 20 = none := by
    unfold compute_sma
    rw [if_pos (by simp)]
  have hsma50 : compute_sma [a, b, c, d, e] 50 = none := by
    unfold compute_sma
    rw [if_pos (by simp)]
  have hsma100 : compute_sma [a, b, c, d, e] 100 = none := by
    unfold compute_sma
    rw [if_pos (by simp)]
  have htrend10 : compute_trend [a, b, c, d, e] 10 = none := by
    unfold compute_trend
    rw [hsma10]
  have htrend50 : compute_trend [a, b, c, d, e] 50 = none := by
    unfold compute_trend
    rw [hsma50]
  have hltt : compute_long_term_trend [a, b, c, d, e] 100 = none := by
    unfold compute_long_term_trend compute_trend
    rw [hsma100]
    rfl
  have hdfh : compute_distance_from_high [a, b, c, d, e] 20 = none := by
    unfold compute_distance_from_high
    rw [if_pos (by simp)]
  have hcnt : count_recovery_patterns [a, b, c, d, e] 180 = 0 := by
    unfold count_recovery_patterns
    rw [if_pos (by simp)]
  unfold trade_score_from_closes
  rw [hmacd, hrsi, hsma10, hsma20, hsma50, hsma100, htrend10, htrend50, hltt, hdfh, hcnt]
  simp only [Option.map_none']
  unfold calculate_trade_score trade_base_score
  dsimp only
  have hcap : detect_proven_winner_capitulation ([a, b, c, d, e].getLast?.getD 0)
      [a, b, c, d, e] none none none = false := by
    unfold detect_proven_winner_capitulation
    rw [if_pos (by right; simp)]
  have hps : detect_post_shock_recovery ([a, b, c, d, e].getLast?.getD 0) none none none
      none [a, b, c, d, e] none = false := rfl
  have hcheap : detect_cheap_on_winner ([a, b, c, d, e].getLast?.getD 0) none none
      none none = false := rfl
  have hrec : detect_recovery_pattern ([a, b, c, d, e].getLast?.getD 0) none none
      none none = false := rfl
  rw [hcap, hps, hcheap, hrec]
  simp only [Bool.false_eq_true, if_false, Bool.false_and]
  have hrsi0 : score_rsi_contextual none none none TRADE_RSI_WEIGHT = (0, 0) := rfl
  rw [hrsi0]
  simp only [score_macd, score_trend, qTruthy]
  rcases hv : compute_volatility [a, b, c, d, e] with _ | ⟨sq, vb⟩
  · simp only [Option.map_none', Bool.false_eq_true, if_false]
    exact ⟨trivial, trivial, trivial, Or.inl ⟨by decide, by decide⟩⟩
  · simp only [Option.map_some', Bool.false_eq_true, if_false]
    cases vb
    · exact ⟨trivial, trivial, trivial, Or.inr ⟨by decide, by decide⟩⟩
    · exact ⟨trivial, trivial, trivial, Or.inl ⟨by decide, by decide⟩⟩
    · exact ⟨trivial, trivial, trivial, Or.inr ⟨by decide, by decide⟩⟩

theorem zip_losses_zero (l : List ℚ) (h : pairwiseLT l) :
    ∀ x ∈ List.zipWith (fun prev next => max 0 (prev - next)) l l.tail, x = 0 := by
  induction l with
  | nil => intro x hx; simp at hx
  | cons a t ih =>
    cases t with
    | nil => intro x hx; simp at hx
    | cons b t2 =>
      obtain ⟨hab, ht⟩ := h
      intro x hx
      rw [List.tail_cons, List.zipWith_cons_cons] at hx
      rcases List.mem_cons.mp hx with rfl | hx2
      · have hle : a - b ≤ 0 := by linarith
        simp [max_eq_left hle]
      · exact ih ht x (by rw [List.tail_cons]; exact hx2)

theorem zip_gains_zero (l : List ℚ) (h : pairwiseGT l) :
    ∀ x ∈ List.zipWith (fun prev next => max 0 (next - prev)) l l.tail, x = 0 := by
  induction l with
  | nil => intro x hx; simp at hx
  | cons a t ih =>
    cases t with
    | nil => intro x hx; simp at hx
    | cons b t2 =>
      obtain ⟨hab, ht⟩ := h
      intro x hx
      rw [List.tail_cons, List.zipWith_cons_cons] at hx
      rcases List.mem_cons.mp hx with rfl | hx2
      · have hle : b - a ≤ 0 := by
          have : b < a := hab
          linarith
        simp [max_eq_left hle]
      · exact ih ht x (by rw [List.tail_cons]; exact hx2)

theorem zip_losses_pos (l : List ℚ) (h : pairwiseGT l) :
    ∀ x ∈ List.zipWith (fun prev next => max 0 (prev - next)) l l.tail, 0 < x := by
  induction l with
  | nil => intro x hx; simp at hx
  | cons a t ih =>
    cases t with
    | nil => intro x hx; simp at hx
    | cons b t2 =>
      obtain ⟨hab, ht⟩ := h
      intro x hx
      rw [List.tail_cons, List.zipWith_cons_cons] at hx
      rcases List.mem_cons.mp hx with rfl | hx2
      · have hpos : (0 : ℚ) < a - b := by
          have : b < a := hab
          linarith
        exact lt_max_of_lt_right hpos
      · exact ih ht x (by rw [List.tail_cons]; exact hx2)

/-- C8: every strictly rising 20-point series yields RSI 100 (at or above
the 70 Overbought threshold) with bias Overbought, because the average loss
is zero; every strictly falling 20-point series yields RSI 0 (at or below
30) with bias Oversold, because the average gain is zero. -/
theorem rsi_monotone_boundary (c : List ℚ) (hlen : c.length = 20) :
    (pairwiseLT c → compute_rsi c 14 = some ⟨100, RSIBias.OVERBOUGHT⟩) ∧
    (pairwiseGT c → compute_rsi c 14 = some ⟨0, RSIBias.OVERSOLD⟩) := by
  have hlg : (List.zipWith (fun prev next => max 0 (next - prev)) c c.tail).length = 19 := by
    rw [List.length_zipWith, List.length_tail, hlen]
    omega
  have hll : (List.zipWith (fun prev next => max 0 (prev - next)) c c.tail).length = 19 := by
    rw [List.length_zipWith, List.length_tail, hlen]
    omega
  constructor
  · intro hm
    have hz : (takeLast 14 (List.zipWith (fun prev next => max 0 (prev - next)) c c.tail)).sum = 0 :=
      List.sum_eq_zero (fun x hx => zip_losses_zero c hm x (List.drop_subset _ _ hx))
    unfold compute_rsi
    rw [if_neg (by omega)]
    dsimp only
    rw [if_neg (by omega)]
    rw [hz]
    norm_num
  · intro hm
    have hz : (takeLast 14 (List.zipWith (fun prev next => max 0 (next - prev)) c c.tail)).sum = 0 :=
      List.sum_eq_zero (fun x hx => zip_gains_zero c hm x (List.drop_subset _ _ hx))
    have hpos : 0 < (takeLast 14 (List.zipWith (fun prev next => max 0 (prev - next)) c c.tail)).sum := by
      apply List.sum_pos
      · intro x hx
        exact zip_losses_pos c hm x (List.drop_subset _ _ hx)
      · have hlt : (takeLast 14 (List.zipWith (fun prev next => max 0 (prev - next)) c c.tail)).length = 14 := by
          unfold takeLast
          rw [List.length_drop, hll]
        intro hc
        rw [hc] at hlt
        simp at hlt
    unfold compute_rsi
    rw [if_neg (by omega)]
    dsimp only
    rw [if_neg (by omega)]
    rw [hz]
    have hne : (takeLast 14 (List.zipWith (fun prev next => max 0 (prev - next)) c c.tail)).sum
        / (((14 : ℕ) : ℚ)) ≠ 0 := by
      apply div_ne_zero (ne_of_gt hpos)
      norm_num
    rw [if_neg hne]
    norm_num

theorem rsi_monotone_boundary_witness :
    (((List.range 20).map (fun i => (100 + i : ℚ))).length = 20 ∧
      pairwiseLT ((List.range 20).map (fun i => (100 + i : ℚ))) ∧
      compute_rsi ((List.range 20).map (fun i => (100 + i : ℚ))) 14 =
        some ⟨100, RSIBias.OVERBOUGHT⟩) ∧
    (((List.range 20).map (fun i => (119 - i : ℚ))).length = 20 ∧
      pairwiseGT ((List.range 20).map (fun i => (119 - i : ℚ))) ∧
      compute_rsi ((List.range 20).map (fun i => (119 - i : ℚ))) 14 =
        some ⟨0, RSIBias.OVERSOLD⟩) :=
  ⟨⟨by decide, by decide,
    (rsi_monotone_boundary ((List.range 20).map (fun i => (100 + i : ℚ))) (by decide)).1 (by decide)⟩,
   ⟨by decide, by decide,
    (rsi_monotone_boundary ((List.range 20).map (fun i => (119 - i : ℚ))) (by decide)).2 (by decide)⟩⟩

set_option maxRecDepth 8000 in
/-- C9 counterexample: a strictly increasing 30-point series (unit steps up
to 114, then steps of 1/1000) whose MACD histogram is negative with bias
Bear — strict monotonicity alone forces neither `hist > 0` nor Bull, since
the histogram tracks momentum, which here decays. -/
theorem macd_strictly_increasing_not_bull :
    (((List.range 15).map (fun i => (100 + i : ℚ))) ++
        ((List.range 15).map (fun i => (114 + ((i : ℚ) + 1) / 1000)))).length = 30 ∧
    pairwiseLT (((List.range 15).map (fun i => (100 + i : ℚ))) ++
        ((List.range 15).map (fun i => (114 + ((i : ℚ) + 1) / 1000)))) ∧
    (compute_macd (((List.range 15).map (fun i => (100 + i : ℚ))) ++
        ((List.range 15).map (fun i => (114 + ((i : ℚ) + 1) / 1000))))).map
      (fun r => (decide (r.hist < 0), r.bias)) = some (true, MACDBias.BEAR) := by
  refine ⟨by decide, by decide, by decide⟩

set_option maxRecDepth 8000 in
/-- C9 amended: on the literal 30-point arithmetic series
`[100, 101, ..., 129]` the MACD histogram is positive with bias Bull, and
on `[129, 128, ..., 100]` it is negative with bias Bear. -/
theorem macd_literal_series_sign :
    (compute_macd ((List.range 30).map (fun i => (100 + i : ℚ)))).map
      (fun r => (decide (0 < r.hist), r.bias)) = some (true, MACDBias.BULL) ∧
    (compute_macd ((List.range 30).map (fun i => (129 - i : ℚ)))).map
      (fun r => (decide (r.hist < 0), r.bias)) = some (true, MACDBias.BEAR) ∧
    pairwiseLT ((List.range 30).map (fun i => (100 + i : ℚ))) ∧
    pairwiseGT ((List.range 30).map (fun i => (129 - i : ℚ))) := by
  refine ⟨by decide, by decide, by decide, by decide⟩

theorem turnaround_gating_witness :
    (calculate_trade_score 0 none none none none none none none none none none
      none none none 0 []).turnaround_active = false ∧
    (calculate_trade_score 0 none none none none none none none none none none
      none none none 0 []).display_score =
      (calculate_trade_score 0 none none none none none none none none none none
        none none none 0 []).bau_score :=
  ⟨by decide, ((turnaround_gating 0 none none none none none none none none none
    none none none none 0 []).2.2.1 (by decide)).1⟩

theorem turnaround_dominates_bau_witness :
    detect_proven_winner_capitulation 0 [] none none none = false ∧
    (calculate_trade_score 0 none none none none none none none none none none
      none none none 0 []).turnaround_raw =
      (calculate_trade_score 0 none none none none none none none none none none
        none none none 0 []).bau_raw :=
  ⟨by decide, ((turnaround_dominates_bau 0 none none none none none none none none
    none none none none none 0 []).1.2.2 (by decide)).1⟩

theorem trade_score_five_points_neutral_witness :
    ([(1 : ℚ), 2, 3, 4, 5].length = 5) ∧
    ((trade_score_from_closes [(1 : ℚ), 2, 3, 4, 5]).turnaround_active = false ∧
      (trade_score_from_closes [(1 : ℚ), 2, 3, 4, 5]).turnaround_raw =
        (trade_score_from_closes [(1 : ℚ), 2, 3, 4, 5]).bau_raw ∧
      (trade_score_from_closes [(1 : ℚ), 2, 3, 4, 5]).turnaround_score =
        (trade_score_from_closes [(1 : ℚ), 2, 3, 4, 5]).bau_score ∧
      (((trade_score_from_closes [(1 : ℚ), 2, 3, 4, 5]).bau_raw = 0 ∧
          (trade_score_from_closes [(1 : ℚ), 2, 3, 4, 5]).bau_score = 50) ∨
        ((trade_score_from_closes [(1 : ℚ), 2, 3, 4, 5]).bau_raw = 5 ∧
          (trade_score_from_closes [(1 : ℚ), 2, 3, 4, 5]).bau_score = 51))) :=
  ⟨by decide, trade_score_five_points_neutral [(1 : ℚ), 2, 3, 4, 5] (by decide)⟩

end Iceberg
